import Mathlib

/-!
Verification of the LobeQwenAI provider runtime
(`src/config/modelProviders/stepfun.ts`, class `LobeQwenAI`).

The TypeScript source is shallowly embedded: optional / possibly-`undefined`
fields become `Option`, JavaScript truthiness tests are spelled out
explicitly, floating-point sampling parameters become `ℚ` (only order
comparisons and constant substitution occur in the source), and the
`ReadableStream` synthesized by `transformResponseToStream` becomes the
finite list of chunks it enqueues, in enqueue order.
-/

namespace QwenRuntime

/-- A chat message of the canonical payload (role, content). -/
structure ChatMessage where
  role : String
  content : Option String
  deriving Repr, DecidableEq, Inhabited

/-- A tool / function declaration attached to the payload. -/
structure ToolDecl where
  name : String
  deriving Repr, DecidableEq, Inhabited

/-- Canonical request `ChatStreamPayload`: messages, model id, sampling
parameters, optional tool declarations and the requested streaming flag.
`none` models an absent (`undefined`) field. -/
structure ChatStreamPayload where
  messages : List ChatMessage
  model : String
  temperature : Option ℚ
  top_p : Option ℚ
  presence_penalty : Option ℚ
  frequency_penalty : Option ℚ
  tools : Option (List ToolDecl)
  stream : Option Bool
  deriving Repr, DecidableEq, Inhabited

/-- The vendor-shaped request object produced by
`buildCompletionParamsByModel`.  A field that the builder omits (the
vision-model branch) is `none`; `stream` is always decided, and
`result_format` is present (`some "message"`) exactly on the non-vision
branch. -/
structure CompletionParams where
  messages : List ChatMessage
  model : String
  temperature : Option ℚ
  top_p : Option ℚ
  presence_penalty : Option ℚ
  frequency_penalty : Option ℚ
  tools : Option (List ToolDecl)
  stream : Bool
  result_format : Option String
  deriving Repr, DecidableEq, Inhabited

/-- `model.startsWith('qwen-vl')`, evaluated over the strings' character
sequences (the byte-level loop of `String.startsWith` computes exactly
this). -/
def strStartsWith (s pre : String) : Bool :=
  pre.data.isPrefixOf s.data

/-- JavaScript truthiness of `tools?.length`:
`undefined` and `0` are falsy, any non-zero length is truthy. -/
def toolsTruthy : Option (List ToolDecl) → Bool
  | none => false
  | some ts => ts.length != 0

/-- `top_p: top_p && top_p >= 1 ? 0.999 : top_p` — the guard is JS-truthy
`top_p` (so `undefined` and `0` take the else branch) conjoined with
`top_p >= 1`. -/
def normTopP : Option ℚ → Option ℚ
  | none => none
  | some t => if t ≠ 0 ∧ 1 ≤ t then some (999 / 1000) else some t

/-- `buildCompletionParamsByModel`, translated clause by clause from the
source: spreads the payload, sets `result_format: 'message'`, forces
`stream` to `false` when `tools` is non-empty (else `stream ?? true`),
substitutes `0.999` for `top_p >= 1`, and for vision models
(`model.startsWith('qwen-vl')`) omits `presence_penalty`,
`frequency_penalty`, `temperature`, `result_format` and `top_p`. -/
def buildCompletionParamsByModel (payload : ChatStreamPayload) : CompletionParams :=
  let isVisionModel := strStartsWith payload.model "qwen-vl"
  let params : CompletionParams :=
    { messages := payload.messages
      model := payload.model
      temperature := payload.temperature
      top_p := normTopP payload.top_p
      presence_penalty := payload.presence_penalty
      frequency_penalty := payload.frequency_penalty
      tools := payload.tools
      stream := if toolsTruthy payload.tools then false else payload.stream.getD true
      result_format := some "message" }
  if isVisionModel then
    { params with
        presence_penalty := none
        frequency_penalty := none
        temperature := none
        result_format := none
        top_p := none }
  else params

/-- A tool call's function payload (`{ name, arguments }`). -/
structure ToolCallFunction where
  name : String
  arguments : String
  deriving Repr, DecidableEq, Inhabited

/-- A tool call attached to a completion message. -/
structure MessageToolCall where
  id : String
  type : String
  function : ToolCallFunction
  deriving Repr, DecidableEq, Inhabited

/-- The message of one `ChatCompletion.Choice` (OpenAI shape: `content`
may be `null`). -/
structure CompletionMessage where
  role : String
  content : Option String
  tool_calls : Option (List MessageToolCall)
  deriving Repr, DecidableEq, Inhabited

/-- One choice of a blocking `ChatCompletion` response. -/
structure CompletionChoice where
  index : Nat
  message : CompletionMessage
  finish_reason : String
  logprobs : Option String
  deriving Repr, DecidableEq, Inhabited

/-- A blocking (non-streaming) vendor `ChatCompletion` response. -/
structure ChatCompletion where
  id : String
  created : Nat
  model : String
  choices : List CompletionChoice
  system_fingerprint : Option String
  deriving Repr, DecidableEq, Inhabited

/-- A tool-call fragment in a chunk delta, with a reconstructed index. -/
structure DeltaToolCall where
  function : ToolCallFunction
  id : String
  index : Nat
  type : String
  deriving Repr, DecidableEq, Inhabited

/-- The delta of one chunk choice. -/
structure ChunkDelta where
  content : Option String
  role : Option String
  tool_calls : Option (List DeltaToolCall)
  deriving Repr, DecidableEq, Inhabited

/-- One choice of a canonical `ChatCompletionChunk`. -/
structure ChunkChoice where
  delta : ChunkDelta
  finish_reason : Option String
  index : Nat
  logprobs : Option String
  deriving Repr, DecidableEq, Inhabited

/-- A canonical `ChatCompletionChunk`. -/
structure ChatCompletionChunk where
  choices : List ChunkChoice
  created : Nat
  id : String
  model : String
  object : String
  system_fingerprint : Option String
  deriving Repr, DecidableEq, Inhabited

/-- `transformResponseToStream`, translated from the source: the
`ReadableStream` enqueues exactly two chunks and closes, so it is embedded
as the two-element list of those chunks in enqueue order.  The first chunk
copies each choice's message content/role (and its tool calls, re-indexed
by position) into the delta with `finish_reason: null`; the second chunk
copies content/role again and carries the choice's `finish_reason` and the
response's `system_fingerprint`. -/
def transformResponseToStream (data : ChatCompletion) : List ChatCompletionChunk :=
  let chunk : ChatCompletionChunk :=
    { choices := data.choices.map fun choice =>
        { delta :=
            { content := choice.message.content
              role := some choice.message.role
              tool_calls := choice.message.tool_calls.map fun tcs =>
                tcs.mapIdx fun index tool =>
                  { function := tool.function
                    id := tool.id
                    index := index
                    type := tool.type } }
          finish_reason := none
          index := choice.index
          logprobs := choice.logprobs }
      created := data.created
      id := data.id
      model := data.model
      object := "chat.completion.chunk"
      system_fingerprint := none }
  [chunk,
   { choices := data.choices.map fun choice =>
       { delta :=
           { content := choice.message.content
             role := some choice.message.role
             tool_calls := none }
         finish_reason := some choice.finish_reason
         index := choice.index
         logprobs := choice.logprobs }
     created := data.created
     id := data.id
     model := data.model
     object := "chat.completion.chunk"
     system_fingerprint := data.system_fingerprint }]

/-- The runtime error taxonomy: `AgentRuntimeErrorType.InvalidProviderAPIKey`,
`AgentRuntimeErrorType.ProviderBizError`, and the finer vendor-specific
kinds that `handleOpenAIError` may surface. -/
inductive ErrorKind where
  | InvalidProviderAPIKey : ErrorKind
  | ProviderBizError : ErrorKind
  | Finer : String → ErrorKind
  deriving Repr, DecidableEq, Inhabited

/-- An arbitrary value thrown by the vendor call: `status = some n` models
`'status' in error` holding with that HTTP status; `payload` is the rest of
the error, opaque to the classification logic. -/
structure ThrownError where
  status : Option Nat
  payload : String
  deriving Repr, DecidableEq, Inhabited

/-- The `RuntimeError` object built by `AgentRuntimeError.chat`: endpoint,
provider id, classified kind and the original error payload. -/
structure RuntimeErrorPayload where
  endpoint : String
  errorType : ErrorKind
  provider : String
  error : String
  deriving Repr, DecidableEq, Inhabited

/-- The provider id constant `ModelProvider.Qwen` used to tag every error. -/
def qwenProviderId : String := "qwen"

/-- The `catch` block of `chat`, translated from the source: when the
error carries `status === 401` it throws `InvalidProviderAPIKey`;
otherwise (`status` absent, or any other status falling through the
`default` case) it delegates to `handleOpenAIError` and defaults the kind
to `ProviderBizError` when that inspector yields no finer classification.
`handleOpenAIError` lives outside this file's sources, so it is passed in
abstractly as `inspector`, returning the extracted error body and the
optional finer kind. -/
def normalizeChatError (inspector : ThrownError → String × Option ErrorKind)
    (baseURL : String) (e : ThrownError) : RuntimeErrorPayload :=
  if e.status = some 401 then
    { endpoint := baseURL
      errorType := ErrorKind.InvalidProviderAPIKey
      provider := qwenProviderId
      error := e.payload }
  else
    { endpoint := baseURL
      errorType := ((inspector e).2).getD ErrorKind.ProviderBizError
      provider := qwenProviderId
      error := (inspector e).1 }

/-- The documented default base URL of the runtime. -/
def DEFAULT_BASE_URL : String := "https://dashscope.aliyuncs.com/compatible-mode/v1"

/-- The constructed runtime state: the authenticated client's key and the
resolved base URL. -/
structure LobeQwenAI where
  apiKey : String
  baseURL : String
  deriving Repr, DecidableEq, Inhabited

/-- JS truthiness of the `apiKey` option: `undefined` and `''` are falsy. -/
def apiKeyTruthy : Option String → Bool
  | none => false
  | some k => k != ""

/-- The `LobeQwenAI` constructor, translated from the source.  `!apiKey`
throws `InvalidProviderAPIKey` before the OpenAI client is constructed;
otherwise the client is created with `baseURL` defaulted to
`DEFAULT_BASE_URL`.  The second component is the trace of construction
effects: the error branch performs none (in particular no client creation,
hence no network activity). -/
def mkLobeQwenAI (apiKey : Option String) (baseURL : Option String) :
    Except ErrorKind LobeQwenAI × List String :=
  if apiKeyTruthy apiKey then
    (Except.ok
      { apiKey := apiKey.getD ""
        baseURL := baseURL.getD DEFAULT_BASE_URL },
     ["new OpenAI"])
  else
    (Except.error ErrorKind.InvalidProviderAPIKey, [])

/-- One entry of the static per-provider model catalog. -/
structure ChatModelCard where
  id : String
  tokens : Nat
  enabled : Bool
  vision : Bool
  deriving Repr, DecidableEq, Inhabited

/-- Modelled from the spec: the static Qwen model catalog
(`@/config/modelProviders/qwen`, imported by the runtime, is not among the
sources; the spec describes it only as "a static per-provider model
catalog" consumed read-only).  The concrete entries are immaterial to the
claims: only that `models()` returns this fixed table unchanged matters. -/
def QwenChatModels : List ChatModelCard :=
  [{ id := "qwen-turbo", tokens := 8192, enabled := true, vision := false },
   { id := "qwen-plus", tokens := 32768, enabled := true, vision := false },
   { id := "qwen-max", tokens := 8192, enabled := true, vision := false },
   { id := "qwen-vl-plus", tokens := 8192, enabled := true, vision := true }]

/-- `models()`, translated from the source: `return Qwen.chatModels`.
The runtime state is threaded explicitly to express that the call leaves
it untouched. -/
def models (rt : LobeQwenAI) : List ChatModelCard × LobeQwenAI :=
  (QwenChatModels, rt)

/-- The value returned by the vendor SDK call.  The TypeScript code holds a
single object that it reads either as a stream (`params.stream` branch) or,
after a cast, as a blocking `ChatCompletion`; both views are carried here. -/
structure VendorResponse where
  asStream : List ChatCompletionChunk
  asCompletion : ChatCompletion
  deriving Repr, DecidableEq, Inhabited

/-- The HTTP streaming response handed back to the caller: the canonical
frame sequence produced by `QwenAIStream` wrapped by `StreamingResponse`
with the caller's headers. -/
structure ChatHttpResponse where
  body : List String
  headers : List (String × String)
  deriving Repr, DecidableEq, Inhabited

/-- `response.tee()`: two identical logical copies of one stream. -/
def teeStream (s : List ChatCompletionChunk) :
    List ChatCompletionChunk × List ChatCompletionChunk :=
  (s, s)

/-- The success path of `chat` after the vendor call returns, translated
from the source.  On the streaming branch the response is teed; the `prod`
copy feeds `QwenAIStream` (abstracted as `transcode`, since that utility is
outside this file's sources) and the `debug` copy is consumed only when the
`DEBUG_QWEN_CHAT_COMPLETION` toggle is `'1'`, with any `debugStream`
failure caught (`.catch(console.error)`) and turned into a console log.
On the non-streaming branch the blocking response is synthesized into the
two-chunk stream and transcoded the same way.  Returns the primary
response paired with the console-log side channel. -/
def chatReturnedResponse (transcode : List ChatCompletionChunk → List String)
    (headers : List (String × String)) (debugEnabled debugSinkFails : Bool)
    (streamFlag : Bool) (resp : VendorResponse) :
    ChatHttpResponse × List String :=
  if streamFlag then
    let t := teeStream resp.asStream
    let consoleLog :=
      if debugEnabled then
        if debugSinkFails then ["debugStream error"] else []
      else []
    ({ body := transcode t.1, headers := headers }, consoleLog)
  else
    ({ body := transcode (transformResponseToStream resp.asCompletion)
       headers := headers }, [])

/-- `chat`, translated from the source: build the vendor request, invoke
the vendor (abstracted as `vendorCall`, which may throw), hand the result
to the streaming / non-streaming branch, and wrap any failure of those
steps in the single `catch` block that classifies it into one
`RuntimeError` carrying the runtime's `baseURL` and the Qwen provider id. -/
def chat (inspector : ThrownError → String × Option ErrorKind)
    (transcode : List ChatCompletionChunk → List String)
    (headers : List (String × String)) (debugEnabled debugSinkFails : Bool)
    (rt : LobeQwenAI) (payload : ChatStreamPayload)
    (vendorCall : CompletionParams → Except ThrownError VendorResponse) :
    Except RuntimeErrorPayload (ChatHttpResponse × List String) :=
  let params := buildCompletionParamsByModel payload
  match vendorCall params with
  | Except.ok resp =>
      Except.ok (chatReturnedResponse transcode headers debugEnabled debugSinkFails
        params.stream resp)
  | Except.error e => Except.error (normalizeChatError inspector rt.baseURL e)

/-- A concrete non-vision payload used as a concrete test input. -/
def plainPayload : ChatStreamPayload :=
  { messages := [{ role := "user", content := some "hi" }]
    model := "qwen-max"
    temperature := some (7 / 10)
    top_p := some (1 / 2)
    presence_penalty := some 0
    frequency_penalty := some 0
    tools := none
    stream := none }

/-- A concrete non-vision payload requesting `top_p = 2`. -/
def clampPayload : ChatStreamPayload :=
  { plainPayload with top_p := some 2 }

/-- A concrete vision-model payload requesting `top_p = 1`. -/
def visionTopPPayload : ChatStreamPayload :=
  { plainPayload with model := "qwen-vl-plus", top_p := some 1 }

/-- A concrete payload carrying one tool declaration. -/
def toolsPayload : ChatStreamPayload :=
  { plainPayload with tools := some [{ name := "search" }], stream := some true }

end QwenRuntime

namespace QwenRuntime

/-- A concrete blocking vendor response with one choice. -/
def exCompletion : ChatCompletion :=
  { id := "chatcmpl-1"
    created := 1
    model := "qwen-max"
    choices := [{ index := 0
                  message := { role := "assistant", content := some "Hello", tool_calls := none }
                  finish_reason := "stop"
                  logprobs := none }]
    system_fingerprint := none }

/-- C1: counterexample to the claim as stated.  On the concrete one-choice
response, the second synthesized chunk's delta carries the full message
content `"Hello"` — neither empty nor absent — while the claim requires
empty/absent content alongside the populated `finish_reason`. -/
theorem second_chunk_carries_content :
    (transformResponseToStream exCompletion).length = 2 ∧
    (((transformResponseToStream exCompletion).getD 1 default).choices.getD 0
        default).finish_reason = some "stop" ∧
    (((transformResponseToStream exCompletion).getD 1 default).choices.getD 0
        default).delta.content = some "Hello" ∧
    some "Hello" ≠ (none : Option String) ∧ (some "Hello" : Option String) ≠ some "" := by
  refine ⟨rfl, rfl, rfl, by simp, by simp⟩

/-- C1 (amended): the synthesized stream has exactly 2 chunks; in the
first chunk every choice has `finish_reason = null` and the message's
content/role in its delta; in the second chunk every choice carries its
`finish_reason` and the delta again repeats the message's content and role
(content is duplicated, not empty/absent). -/
theorem transform_response_two_chunks (data : ChatCompletion) :
    (transformResponseToStream data).length = 2 ∧
    List.Forall₂
      (fun ch c => ch.finish_reason = none ∧ ch.delta.content = c.message.content ∧
        ch.delta.role = some c.message.role ∧ ch.index = c.index)
      ((transformResponseToStream data).getD 0 default).choices data.choices ∧
    List.Forall₂
      (fun ch c => ch.finish_reason = some c.finish_reason ∧
        ch.delta.content = c.message.content ∧
        ch.delta.role = some c.message.role ∧ ch.index = c.index)
      ((transformResponseToStream data).getD 1 default).choices data.choices := by
  refine ⟨rfl, ?_, ?_⟩
  · exact List.forall₂_map_left_iff.mpr
      (List.forall₂_same.mpr fun c _ => ⟨rfl, rfl, rfl, rfl⟩)
  · exact List.forall₂_map_left_iff.mpr
      (List.forall₂_same.mpr fun c _ => ⟨rfl, rfl, rfl, rfl⟩)

/-- C2: counterexample to the claim as stated.  `visionTopPPayload` has
`top_p = 1 ≥ 1`, yet the built vendor request's `top_p` is omitted
(`none`) rather than `0.999`, because the vision branch strips `top_p`
after the clamp. -/
theorem top_p_claim_counterexample :
    visionTopPPayload.top_p = some 1 ∧ (1 : ℚ) ≤ 1 ∧
    (buildCompletionParamsByModel visionTopPPayload).top_p = none ∧
    (buildCompletionParamsByModel visionTopPPayload).top_p ≠ some (999 / 1000) := by
  refine ⟨rfl, le_refl 1, rfl, ?_⟩
  rw [show (buildCompletionParamsByModel visionTopPPayload).top_p = none from rfl]
  simp

/-- C2 (amended): for non-vision payloads, a present `top_p ≥ 1` is clamped
to `0.999` and a present `top_p < 1` passes through unchanged; for vision
payloads (model id matching the `qwen-vl` family) `top_p` is omitted from
the built request. -/
theorem top_p_normalization (p : ChatStreamPayload) :
    (strStartsWith p.model "qwen-vl" = false →
      ∀ t, p.top_p = some t →
        ((1 ≤ t → (buildCompletionParamsByModel p).top_p = some (999 / 1000)) ∧
         (t < 1 → (buildCompletionParamsByModel p).top_p = some t))) ∧
    (strStartsWith p.model "qwen-vl" = true →
      (buildCompletionParamsByModel p).top_p = none) := by
  constructor
  · intro hvis t ht
    constructor
    · intro h1
      simp only [buildCompletionParamsByModel, hvis, Bool.false_eq_true, if_false, ht, normTopP]
      rw [if_pos ⟨(lt_of_lt_of_le zero_lt_one h1).ne', h1⟩]
    · intro hlt
      simp only [buildCompletionParamsByModel, hvis, Bool.false_eq_true, if_false, ht, normTopP]
      rw [if_neg fun h => absurd h.2 (not_le.mpr hlt)]
  · intro hvis
    simp [buildCompletionParamsByModel, hvis]

/-- C2 witness: the amended normalization at concrete payloads — clamp at
`top_p = 2`, pass-through at `top_p = 1/2`, omission for the vision model. -/
theorem top_p_normalization_witness :
    (strStartsWith clampPayload.model "qwen-vl" = false ∧ clampPayload.top_p = some 2 ∧
      (1 : ℚ) ≤ 2 ∧ (buildCompletionParamsByModel clampPayload).top_p = some (999 / 1000)) ∧
    (strStartsWith plainPayload.model "qwen-vl" = false ∧ plainPayload.top_p = some (1 / 2) ∧
      (1 / 2 : ℚ) < 1 ∧ (buildCompletionParamsByModel plainPayload).top_p = some (1 / 2)) ∧
    (strStartsWith visionTopPPayload.model "qwen-vl" = true ∧
      (buildCompletionParamsByModel visionTopPPayload).top_p = none) :=
  ⟨⟨rfl, rfl, by norm_num,
    ((top_p_normalization clampPayload).1 rfl 2 rfl).1 (by norm_num)⟩,
   ⟨rfl, rfl, by norm_num,
    ((top_p_normalization plainPayload).1 rfl (1 / 2) rfl).2 (by norm_num)⟩,
   ⟨rfl, (top_p_normalization visionTopPPayload).2 rfl⟩⟩

/-- C3: a non-empty tool list forces `stream = false`; with tools absent or
empty, `stream` equals the requested flag, defaulting to `true` when the
flag is absent (`stream ?? true`). -/
theorem stream_mode_decision (p : ChatStreamPayload) :
    (∀ ts, p.tools = some ts → ts ≠ [] →
      (buildCompletionParamsByModel p).stream = false) ∧
    ((p.tools = none ∨ p.tools = some []) →
      (buildCompletionParamsByModel p).stream = p.stream.getD true) := by
  constructor
  · intro ts hts hne
    cases ts with
    | nil => exact absurd rfl hne
    | cons t ts =>
        by_cases hv : strStartsWith p.model "qwen-vl" <;>
          simp [buildCompletionParamsByModel, toolsTruthy, hts, hv]
  · intro htools
    rcases htools with h | h <;>
      by_cases hv : strStartsWith p.model "qwen-vl" <;>
        simp [buildCompletionParamsByModel, toolsTruthy, h, hv]

/-- C3 witness: the stream decision at concrete payloads — forced off with
one tool, honored (defaulted to `true`) with no tools. -/
theorem stream_mode_decision_witness :
    (toolsPayload.tools = some [{ name := "search" }] ∧
      ([{ name := "search" }] : List ToolDecl) ≠ [] ∧
      (buildCompletionParamsByModel toolsPayload).stream = false) ∧
    (plainPayload.tools = none ∧
      (buildCompletionParamsByModel plainPayload).stream = plainPayload.stream.getD true) :=
  ⟨⟨rfl, by simp,
    (stream_mode_decision toolsPayload).1 [{ name := "search" }] rfl (by simp)⟩,
   ⟨rfl, (stream_mode_decision plainPayload).2 (Or.inl rfl)⟩⟩

/-- C4: for vision-model payloads the built request omits
`presence_penalty`, `frequency_penalty`, `temperature`, `top_p` and the
`result_format` field. -/
theorem vision_params_omitted (p : ChatStreamPayload)
    (h : strStartsWith p.model "qwen-vl" = true) :
    (buildCompletionParamsByModel p).presence_penalty = none ∧
    (buildCompletionParamsByModel p).frequency_penalty = none ∧
    (buildCompletionParamsByModel p).temperature = none ∧
    (buildCompletionParamsByModel p).top_p = none ∧
    (buildCompletionParamsByModel p).result_format = none := by
  simp [buildCompletionParamsByModel, h]

/-- C4 witness: the omissions at the concrete vision payload. -/
theorem vision_params_omitted_witness :
    strStartsWith visionTopPPayload.model "qwen-vl" = true ∧
    ((buildCompletionParamsByModel visionTopPPayload).presence_penalty = none ∧
     (buildCompletionParamsByModel visionTopPPayload).frequency_penalty = none ∧
     (buildCompletionParamsByModel visionTopPPayload).temperature = none ∧
     (buildCompletionParamsByModel visionTopPPayload).top_p = none ∧
     (buildCompletionParamsByModel visionTopPPayload).result_format = none) :=
  ⟨rfl, vision_params_omitted visionTopPPayload rfl⟩

/-- C10: for non-vision payloads the builder (a total function) preserves
every payload field other than `stream` and `top_p` unchanged and sets
`result_format` to `'message'`; no payload field is dropped. -/
theorem non_vision_frame_condition (p : ChatStreamPayload)
    (h : strStartsWith p.model "qwen-vl" = false) :
    (buildCompletionParamsByModel p).messages = p.messages ∧
    (buildCompletionParamsByModel p).model = p.model ∧
    (buildCompletionParamsByModel p).temperature = p.temperature ∧
    (buildCompletionParamsByModel p).presence_penalty = p.presence_penalty ∧
    (buildCompletionParamsByModel p).frequency_penalty = p.frequency_penalty ∧
    (buildCompletionParamsByModel p).tools = p.tools ∧
    (buildCompletionParamsByModel p).result_format = some "message" := by
  simp [buildCompletionParamsByModel, h]

/-- C10 witness: the frame condition at the concrete non-vision payload. -/
theorem non_vision_frame_condition_witness :
    strStartsWith plainPayload.model "qwen-vl" = false ∧
    ((buildCompletionParamsByModel plainPayload).messages = plainPayload.messages ∧
     (buildCompletionParamsByModel plainPayload).model = plainPayload.model ∧
     (buildCompletionParamsByModel plainPayload).temperature = plainPayload.temperature ∧
     (buildCompletionParamsByModel plainPayload).presence_penalty = plainPayload.presence_penalty ∧
     (buildCompletionParamsByModel plainPayload).frequency_penalty = plainPayload.frequency_penalty ∧
     (buildCompletionParamsByModel plainPayload).tools = plainPayload.tools ∧
     (buildCompletionParamsByModel plainPayload).result_format = some "message") :=
  ⟨rfl, non_vision_frame_condition plainPayload rfl⟩

/-- A concrete error carrying HTTP status 401. -/
def ex401 : ThrownError := { status := some 401, payload := "unauthorized" }

/-- A concrete error without an HTTP status. -/
def exPlainError : ThrownError := { status := none, payload := "boom" }

/-- A concrete inspector standing in for `handleOpenAIError`: extracts the
payload as the structured body and yields no finer classification. -/
def exInspector : ThrownError → String × Option ErrorKind :=
  fun e => (e.payload, none)

/-- C5: an error with HTTP status 401 is classified as
`InvalidProviderAPIKey`; any other error gets the inspector's finer
classification when present, else `ProviderBizError`. -/
theorem chat_error_classification (inspector : ThrownError → String × Option ErrorKind)
    (baseURL : String) (e : ThrownError) :
    (e.status = some 401 →
      (normalizeChatError inspector baseURL e).errorType = ErrorKind.InvalidProviderAPIKey) ∧
    (e.status ≠ some 401 →
      (normalizeChatError inspector baseURL e).errorType =
        ((inspector e).2).getD ErrorKind.ProviderBizError) := by
  constructor
  · intro h
    simp [normalizeChatError, h]
  · intro h
    simp [normalizeChatError, h]

/-- C5 witness: classification at a concrete 401 error and at a concrete
status-less error under the concrete inspector. -/
theorem chat_error_classification_witness :
    (ex401.status = some 401 ∧
      (normalizeChatError exInspector DEFAULT_BASE_URL ex401).errorType =
        ErrorKind.InvalidProviderAPIKey) ∧
    (exPlainError.status ≠ some 401 ∧
      (normalizeChatError exInspector DEFAULT_BASE_URL exPlainError).errorType =
        ((exInspector exPlainError).2).getD ErrorKind.ProviderBizError) :=
  ⟨⟨rfl, (chat_error_classification exInspector DEFAULT_BASE_URL ex401).1 rfl⟩,
   ⟨by simp [exPlainError],
    (chat_error_classification exInspector DEFAULT_BASE_URL exPlainError).2
      (by simp [exPlainError])⟩⟩

/-- C6: when the vendor call throws, `chat` returns exactly the single
normalized `RuntimeError` — carrying the runtime's `baseURL` as endpoint
and the Qwen provider id — and never a (partial) success value. -/
theorem chat_error_propagation (inspector : ThrownError → String × Option ErrorKind)
    (transcode : List ChatCompletionChunk → List String)
    (headers : List (String × String)) (d f : Bool)
    (rt : LobeQwenAI) (payload : ChatStreamPayload)
    (vendorCall : CompletionParams → Except ThrownError VendorResponse)
    (e : ThrownError)
    (h : vendorCall (buildCompletionParamsByModel payload) = Except.error e) :
    chat inspector transcode headers d f rt payload vendorCall =
      Except.error (normalizeChatError inspector rt.baseURL e) ∧
    (normalizeChatError inspector rt.baseURL e).endpoint = rt.baseURL ∧
    (normalizeChatError inspector rt.baseURL e).provider = qwenProviderId ∧
    ∀ r, chat inspector transcode headers d f rt payload vendorCall ≠ Except.ok r := by
  have hc : chat inspector transcode headers d f rt payload vendorCall =
      Except.error (normalizeChatError inspector rt.baseURL e) := by
    simp [chat, h]
  refine ⟨hc, ?_, ?_, ?_⟩
  · unfold normalizeChatError
    split <;> rfl
  · unfold normalizeChatError
    split <;> rfl
  · intro r hr
    rw [hc] at hr
    exact Except.noConfusion hr

/-- A concrete failing vendor call. -/
def exVendorCallFail : CompletionParams → Except ThrownError VendorResponse :=
  fun _ => Except.error exPlainError

/-- A concrete transcoder standing in for `QwenAIStream`. -/
def exTranscode : List ChatCompletionChunk → List String :=
  fun chunks => chunks.map fun ch => ch.id

/-- A concrete constructed runtime. -/
def exRuntime : LobeQwenAI := { apiKey := "sk-test", baseURL := DEFAULT_BASE_URL }

/-- C6 witness: error propagation through `chat` at concrete inputs. -/
theorem chat_error_propagation_witness :
    exVendorCallFail (buildCompletionParamsByModel plainPayload) =
      Except.error exPlainError ∧
    chat exInspector exTranscode [] false false exRuntime plainPayload exVendorCallFail =
      Except.error (normalizeChatError exInspector exRuntime.baseURL exPlainError) :=
  ⟨rfl,
   (chat_error_propagation exInspector exTranscode [] false false exRuntime plainPayload
      exVendorCallFail exPlainError rfl).1⟩

/-- C7: constructing the runtime with an absent API key fails immediately
with `InvalidProviderAPIKey` and performs no construction effect (in
particular no client creation, hence nothing network-facing); with a
present (non-empty) key it succeeds, resolving `baseURL` to the documented
default when none is given. -/
theorem construction_contract (b : Option String) (k : String) (hk : k ≠ "") :
    (mkLobeQwenAI none b).1 = Except.error ErrorKind.InvalidProviderAPIKey ∧
    (mkLobeQwenAI none b).2 = [] ∧
    (mkLobeQwenAI (some k) none).1 =
      Except.ok { apiKey := k, baseURL := DEFAULT_BASE_URL } := by
  refine ⟨rfl, rfl, ?_⟩
  simp [mkLobeQwenAI, apiKeyTruthy, hk]

/-- C7 witness: construction outcomes at a concrete key. -/
theorem construction_contract_witness :
    ("sk-test" : String) ≠ "" ∧
    (mkLobeQwenAI none none).1 = Except.error ErrorKind.InvalidProviderAPIKey ∧
    (mkLobeQwenAI none none).2 = [] ∧
    (mkLobeQwenAI (some "sk-test") none).1 =
      Except.ok { apiKey := "sk-test", baseURL := DEFAULT_BASE_URL } :=
  ⟨by decide,
   (construction_contract none "sk-test" (by decide)).1,
   (construction_contract none "sk-test" (by decide)).2.1,
   (construction_contract none "sk-test" (by decide)).2.2⟩

/-- C8: the primary response returned by `chat` is identical for every
value of the debug toggle and every behavior of the debug sink — only the
console-log side channel can differ, so a debug-sink failure never
propagates to or alters the primary stream. -/
theorem debug_toggle_noninterference (inspector : ThrownError → String × Option ErrorKind)
    (transcode : List ChatCompletionChunk → List String)
    (headers : List (String × String)) (d1 f1 d2 f2 : Bool)
    (rt : LobeQwenAI) (payload : ChatStreamPayload)
    (vendorCall : CompletionParams → Except ThrownError VendorResponse) :
    Except.map Prod.fst (chat inspector transcode headers d1 f1 rt payload vendorCall) =
    Except.map Prod.fst (chat inspector transcode headers d2 f2 rt payload vendorCall) := by
  cases hv : vendorCall (buildCompletionParamsByModel payload) with
  | error e => simp [chat, hv]
  | ok resp =>
      by_cases hs : (buildCompletionParamsByModel payload).stream <;>
        simp [chat, hv, chatReturnedResponse, hs, Except.map]

/-- C9: `models()` returns the static Qwen model catalog unchanged and
leaves the runtime state untouched. -/
theorem models_returns_catalog (rt : LobeQwenAI) :
    models rt = (QwenChatModels, rt) := rfl

end QwenRuntime
